import Mathlib

/-!
Shallow embedding of `src/visitors/models.py` (django visitor-pass model).

Timestamps are modelled as `Int` (seconds); `datetime.timedelta` values
(`DEFAULT_TOKEN_EXPIRY`, built from the `VISITOR_TOKEN_EXPIRY` setting)
are an `Int` parameter `expiry`.  Nullable columns are `Option`.
The `VISITOR_QUERYSTRING_KEY` setting is a `String` parameter.

Persistence is modelled by a `DB` state carrying the stored row plus the
`last_updated_at` column (`auto_now=True`): Django sets an `auto_now`
field on `Model.save()`, but a `save(update_fields=[...])` call persists
exactly the listed fields and runs the `auto_now` `pre_save` hook only
for fields that are listed.
-/

namespace Visitors

/-- The three failure kinds raised by `Visitor.validate` as
`InvalidVisitorPass` exceptions (models.py lines 119-128). -/
inductive PassError where
  | inactive
  | expired
  | outOfUses
deriving DecidableEq, Repr

/-- Decidable equality for `Except`, so concrete runs of the fallible
operations can be checked by `decide`. -/
instance instDecEqExcept {ε α : Type} [DecidableEq ε] [DecidableEq α] :
    DecidableEq (Except ε α) := fun x y =>
  match x, y with
  | .error a, .error b =>
    if h : a = b then .isTrue (congrArg Except.error h)
    else .isFalse (fun hc => h (Except.error.inj hc))
  | .ok a, .ok b =>
    if h : a = b then .isTrue (congrArg Except.ok h)
    else .isFalse (fun hc => h (Except.ok.inj hc))
  | .error _, .ok _ => .isFalse (fun hc => Except.noConfusion hc)
  | .ok _, .error _ => .isFalse (fun hc => Except.noConfusion hc)

/-- The exception message attached to each `InvalidVisitorPass`
(models.py lines 122, 124, 126-128). -/
def message : PassError → String
  | .inactive => "Visitor pass is inactive"
  | .expired => "Visitor pass has expired"
  | .outOfUses => "Visitor pass has already been used the maximum number of times"

/-- The `Visitor` model row (models.py lines 32-68).  `context` (opaque
JSON) and the implicit Django `id` are omitted: no claim touches them.
`last_updated_at` (`auto_now=True`) lives on the `DB` wrapper because it
is written by the persistence layer, not by the model's own methods. -/
structure Visitor where
  uuid : String
  first_name : String := ""
  last_name : String := ""
  email : String
  scope : String
  created_at : Int
  expires_at : Option Int := none
  is_active : Bool := true
  max_uses : Option Nat := none
  uses_remaining : Option Nat := none
deriving DecidableEq, Repr

/-- `Visitor.__init__` after `super().__init__` (models.py lines 84-90).
`if not self.expires_at` tests Python truthiness; a `datetime` object is
always truthy, so only `None` triggers the default. -/
def visitorInit (expiry : Int) (v : Visitor) : Visitor :=
  let v1 := if v.expires_at = none
    then { v with expires_at := some (v.created_at + expiry) } else v
  if v1.max_uses.isSome ∧ v1.uses_remaining = none
    then { v1 with uses_remaining := v1.max_uses } else v1

/-- `Visitor.has_expired` (models.py lines 100-105), with the ambient
`tz_now()` made an explicit `now` argument. -/
def has_expired (v : Visitor) (now : Int) : Bool :=
  match v.expires_at with
  | none => false
  | some e => decide (e < now)

/-- `Visitor.out_of_uses` (models.py lines 107-112).  In Python
`self.uses_remaining == 0` is `False` when `uses_remaining` is `None`. -/
def out_of_uses (v : Visitor) : Bool :=
  match v.max_uses with
  | none => false
  | some _ => v.uses_remaining == some 0

/-- `Visitor.is_valid` (models.py lines 114-117). -/
def is_valid (v : Visitor) (now : Int) : Bool :=
  v.is_active && !(has_expired v now) && !(out_of_uses v)

/-- `Visitor.validate` (models.py lines 119-128): raising an
`InvalidVisitorPass` becomes returning `Except.error`; the function
reads the record and returns no modified record (no side effects). -/
def validate (v : Visitor) (now : Int) : Except PassError Unit :=
  if !v.is_active then .error .inactive
  else if has_expired v now then .error .expired
  else if out_of_uses v then .error .outOfUses
  else .ok ()

/-- The persisted state of one row: the stored `Visitor` fields plus the
`last_updated_at` column (`auto_now=True`, models.py line 52). -/
structure DB where
  record : Visitor
  last_updated_at : Int
deriving DecidableEq, Repr

/-- Copy one named field from the in-memory instance `neu` onto the
stored row `old`: the per-field effect of `save(update_fields=[...])`. -/
def applyField (old neu : Visitor) (f : String) : Visitor :=
  if f = "uuid" then { old with uuid := neu.uuid }
  else if f = "first_name" then { old with first_name := neu.first_name }
  else if f = "last_name" then { old with last_name := neu.last_name }
  else if f = "email" then { old with email := neu.email }
  else if f = "scope" then { old with scope := neu.scope }
  else if f = "created_at" then { old with created_at := neu.created_at }
  else if f = "expires_at" then { old with expires_at := neu.expires_at }
  else if f = "is_active" then { old with is_active := neu.is_active }
  else if f = "max_uses" then { old with max_uses := neu.max_uses }
  else if f = "uses_remaining" then { old with uses_remaining := neu.uses_remaining }
  else old

/-- Django `Model.save(update_fields=fields)`: persists exactly the
listed fields; the `auto_now` column `last_updated_at` is touched only
when it is itself listed. -/
def saveUpdateFields (st : DB) (neu : Visitor) (fields : List String) (now : Int) : DB :=
  { record := fields.foldl (fun acc f => applyField acc neu f) st.record
    last_updated_at := if fields.contains "last_updated_at" then now else st.last_updated_at }

/-- Django `Model.save()` with no `update_fields`: persists every field
and sets the `auto_now` column `last_updated_at` to `now`. -/
def save (_st : DB) (neu : Visitor) (now : Int) : DB :=
  { record := neu, last_updated_at := now }

/-- `VisitorManager.get_and_update` (models.py lines 22-29) acting on the
locked row `st`.  Returns the visitor instance handed back to the caller
(or the propagated `InvalidVisitorPass`) together with the resulting
stored state.  A raised error leaves the store untouched.  When
`max_uses` is set, `uses_remaining -= 1` is `Option.map (· - 1)`; the
`none` case (where Python would raise `TypeError`) is unreachable for
records built by `visitorInit`, which forces `uses_remaining` non-null
whenever `max_uses` is non-null. -/
def get_and_update (st : DB) (now : Int) : Except PassError Visitor × DB :=
  match validate st.record now with
  | .error e => (.error e, st)
  | .ok _ =>
    match st.record.max_uses with
    | none => (.ok st.record, st)
    | some _ =>
      let v := { st.record with uses_remaining := st.record.uses_remaining.map (· - 1) }
      (.ok v, saveUpdateFields st v ["uses_remaining"] now)

/-- `Visitor.deactivate` (models.py lines 156-159): mutate `is_active`
then a full `save()`. -/
def deactivate (st : DB) (now : Int) : DB :=
  save st { st.record with is_active := false } now

/-- `Visitor.reactivate` (models.py lines 161-166): mutate three fields
then a full `save()`; `tz_now()` is the explicit `now`. -/
def reactivate (expiry : Int) (st : DB) (now : Int) : DB :=
  save st { st.record with
    is_active := true
    expires_at := some (now + expiry)
    uses_remaining := st.record.max_uses } now

/-- The mutation operations reachable on a stored row. -/
inductive Op where
  | consume (now : Int)
  | deact (now : Int)
  | react (expiry : Int) (now : Int)
deriving DecidableEq, Repr

/-- Apply one operation to the stored state (a failed consume leaves the
state unchanged, as `get_and_update` raises before any write). -/
def applyOp (st : DB) : Op → DB
  | .consume now => (get_and_update st now).2
  | .deact now => deactivate st now
  | .react expiry now => reactivate expiry st now

/-- Apply a sequence of operations. -/
def applyOps (st : DB) (ops : List Op) : DB :=
  ops.foldl applyOp st

/-- Repeated consume calls (the stored state after each call). -/
def consumeMany (st : DB) (ts : List Int) : DB :=
  ts.foldl (fun s t => (get_and_update s t).2) st

/-- The data-model invariant claimed by the spec: `uses_remaining` is
non-null iff `max_uses` is, and `uses_remaining ≤ max_uses` when both
are set (`≥ 0` is free: counters are `Nat`, the columns being
`PositiveIntegerField`). -/
def invB (v : Visitor) : Bool :=
  match v.max_uses, v.uses_remaining with
  | none, none => true
  | some m, some n => decide (n ≤ m)
  | _, _ => false

/-- Error kind of the creation path. -/
inductive CreateError where
  | validationError
deriving DecidableEq, Repr

/-- Modelled from the spec: the creation entry point (`PassStore.create`
/ the form-level `full_clean` enforcement) is not under `src/`; only the
field declarations are (models.py lines 42-45: `email` and `scope` are
required, `blank=False`).  Per the spec it "fails with `ValidationError`
if `email` or `scope` is empty", otherwise constructs the record with
the `__init__` defaulting rules. -/
def create (expiry : Int) (v : Visitor) : Except CreateError Visitor :=
  if v.email = "" || v.scope = "" then .error .validationError
  else .ok (visitorInit expiry v)

/-!
Embedding of the `urllib.parse` functions used by `Visitor.tokenise`
(models.py lines 147-154): `urlparse`, `parse_qs`, `urlencode`,
`urlunparse`.  Strings are handled as `List Char`; the embedding is
faithful on ASCII input (Python percent-encodes the UTF-8 bytes of
non-ASCII characters, which no claim exercises).
-/

/-- Split a list at the first occurrence of `c` (CPython
`str.split(c, 1)` / `str.partition(c)` when `c` occurs). -/
def listSplitFirst (c : Char) : List Char → Option (List Char × List Char)
  | [] => none
  | x :: xs =>
    if x = c then some ([], xs)
    else
      match listSplitFirst c xs with
      | none => none
      | some (a, b) => some (x :: a, b)

/-- Split a list on every occurrence of `c` (CPython `str.split(c)`). -/
def splitOnChar (c : Char) : List Char → List (List Char)
  | [] => [[]]
  | x :: xs =>
    if x = c then [] :: splitOnChar c xs
    else
      match splitOnChar c xs with
      | [] => [[x]]
      | f :: r => (x :: f) :: r

/-- Split a list at the last occurrence of `c`:
`l = before ++ c :: after` (CPython `str.rfind`). -/
def splitAtLast (c : Char) (l : List Char) : Option (List Char × List Char) :=
  match listSplitFirst c l.reverse with
  | none => none
  | some (afterRev, beforeRev) => some (beforeRev.reverse, afterRev.reverse)

/-- The characters CPython `quote`/`quote_plus` never encode
(`_ALWAYS_SAFE`: ASCII alphanumerics and `_.-~`), with empty `safe`. -/
def isSafeChar (c : Char) : Bool :=
  c.isAlphanum || c = '_' || c = '.' || c = '-' || c = '~'

/-- Uppercase hex digit, as CPython percent-encoding emits. -/
def hexDigitUpper (n : Nat) : Char :=
  if n < 10 then Char.ofNat (48 + n) else Char.ofNat (55 + n)

/-- CPython `quote_plus` on one character (ASCII: one UTF-8 byte). -/
def quotePlusChar (c : Char) : List Char :=
  if c = ' ' then ['+']
  else if isSafeChar c then [c]
  else ['%', hexDigitUpper (c.toNat / 16 % 16), hexDigitUpper (c.toNat % 16)]

/-- CPython `urllib.parse.quote_plus` with default arguments. -/
def quote_plus (l : List Char) : List Char :=
  (l.map quotePlusChar).foldr (· ++ ·) []

/-- Value of a hex digit, if any. -/
def hexVal (c : Char) : Option Nat :=
  if c.isDigit then some (c.toNat - 48)
  else if 'A' ≤ c ∧ c ≤ 'F' then some (c.toNat - 55)
  else if 'a' ≤ c ∧ c ≤ 'f' then some (c.toNat - 87)
  else none

/-- CPython `urllib.parse.unquote_plus`: `+` becomes space and `%XX`
sequences are decoded; an invalid escape is left as-is. -/
def unquote_plus : List Char → List Char
  | [] => []
  | '%' :: a :: b :: rest =>
    (match hexVal a, hexVal b with
     | some x, some y => Char.ofNat (16 * x + y) :: unquote_plus rest
     | _, _ => '%' :: unquote_plus (a :: b :: rest))
  | c :: rest => if c = '+' then ' ' :: unquote_plus rest else c :: unquote_plus rest

/-- CPython `urllib.parse.parse_qsl` with default arguments: split the
query on `&`, keep only fields with `=` and a non-empty value
(`keep_blank_values=False`), unquote names and values. -/
def parse_qsl (qs : List Char) : List (List Char × List Char) :=
  (splitOnChar '&' qs).foldr
    (fun field acc =>
      match listSplitFirst '=' field with
      | none => acc
      | some (n, v) =>
        if v.isEmpty then acc else (unquote_plus n, unquote_plus v) :: acc)
    []

/-- Append one name/value pair to the `parse_qs` dict (insertion order
preserved; repeated names accumulate their values in order). -/
def insertPair (d : List (List Char × List (List Char))) (k v : List Char) :
    List (List Char × List (List Char)) :=
  match d with
  | [] => [(k, [v])]
  | (k1, vs) :: rest =>
    if k1 = k then (k1, vs ++ [v]) :: rest else (k1, vs) :: insertPair rest k v

/-- CPython `urllib.parse.parse_qs` with default arguments: a dict from
name to list of values, modelled as an insertion-ordered assoc list. -/
def parse_qs (qs : List Char) : List (List Char × List (List Char)) :=
  (parse_qsl qs).foldl (fun d kv => insertPair d kv.1 kv.2) []

/-- A Python value sitting in the dict handed to `urlencode`: either a
list of strings (what `parse_qs` produced) or the raw object the source
put there with `query.update(...)` — `self.uuid`, whose `str()` is the
canonical hex-with-dashes form, modelled as the string itself. -/
inductive PyVal where
  | strs (xs : List (List Char))
  | raw (s : List Char)
deriving DecidableEq, Repr

/-- CPython `repr` of a `str` (the subset without characters needing a
backslash escape): single quotes, or double quotes when the string
contains a single quote and no double quote. -/
def pyReprStr (s : List Char) : List Char :=
  let sq := Char.ofNat 39
  if s.contains sq ∧ ¬ s.contains '"' then '"' :: (s ++ ['"'])
  else sq :: (s ++ [sq])

/-- CPython `str()` of a value as `urlencode` applies it: a string is
itself; a list renders as `[` repr of each element `, ` ... `]`. -/
def pyStr : PyVal → List Char
  | .raw s => s
  | .strs xs => '[' :: (List.intercalate [',', ' '] (xs.map pyReprStr) ++ [']'])

/-- CPython `dict.update({k: v})`: replace in place if the key exists
(keeping its position), otherwise append. -/
def dictUpdate (d : List (List Char × PyVal)) (k : List Char) (v : PyVal) :
    List (List Char × PyVal) :=
  match d with
  | [] => [(k, v)]
  | (k1, v1) :: rest =>
    if k1 = k then (k1, v) :: rest else (k1, v1) :: dictUpdate rest k v

/-- CPython `urllib.parse.urlencode` with default arguments
(`doseq=False`): each value goes through `str()` then `quote_plus` —
this is what turns a `parse_qs` list value into its Python repr. -/
def urlencodeQ (d : List (List Char × PyVal)) : List Char :=
  List.intercalate ['&']
    (d.map (fun kv => quote_plus kv.1 ++ '=' :: quote_plus (pyStr kv.2)))

/-- The 6-tuple returned by CPython `urlparse` (`list(urlparse(url))`
in the source; index 4 is the query). -/
structure UrlParts where
  scheme : List Char
  netloc : List Char
  path : List Char
  params : List Char
  query : List Char
  fragment : List Char
deriving DecidableEq, Repr

/-- Characters legal in a URL scheme (CPython `scheme_chars`). -/
def isSchemeChar (c : Char) : Bool :=
  c.isAlphanum || c = '+' || c = '-' || c = '.'

/-- CPython `urlsplit` scheme step: split at the first `:` when the part
before it is a non-empty valid scheme starting with a letter; the
scheme is lowercased. -/
def splitScheme (l : List Char) : List Char × List Char :=
  match listSplitFirst ':' l with
  | none => ([], l)
  | some (pre, post) =>
    match pre with
    | [] => ([], l)
    | c :: _ =>
      if c.isAlpha ∧ pre.all isSchemeChar then (pre.map Char.toLower, post)
      else ([], l)

/-- CPython `_splitnetloc`: after a leading `//`, the netloc runs up to
the first `/`, `?` or `#`. -/
def splitNetloc (l : List Char) : List Char × List Char :=
  match l with
  | '/' :: '/' :: rest =>
    (rest.takeWhile (fun c => ¬ (c = '/' ∨ c = '?' ∨ c = '#')),
     rest.dropWhile (fun c => ¬ (c = '/' ∨ c = '?' ∨ c = '#')))
  | _ => ([], l)

/-- CPython `_splitparams`: split the path's last segment at its first
`;` (searching from after the last `/` when the path has one). -/
def splitParams (l : List Char) : List Char × List Char :=
  match splitAtLast '/' l with
  | some (before, after) =>
    match listSplitFirst ';' after with
    | none => (l, [])
    | some (a, b) => (before ++ '/' :: a, b)
  | none =>
    match listSplitFirst ';' l with
    | none => (l, [])
    | some (a, b) => (a, b)

/-- CPython `urllib.parse.urlparse` with default arguments: scheme,
then netloc, then fragment (first `#`), then query (first `?`), then
params off the path's last segment. -/
def urlparse (url : String) : UrlParts :=
  let l := url.data
  let (scheme, l1) := splitScheme l
  let (netloc, l2) := splitNetloc l1
  let (l3, fragment) :=
    match listSplitFirst '#' l2 with
    | none => (l2, [])
    | some (a, b) => (a, b)
  let (l4, query) :=
    match listSplitFirst '?' l3 with
    | none => (l3, [])
    | some (a, b) => (a, b)
  let (path, params) := if l4.contains ';' then splitParams l4 else (l4, [])
  { scheme := scheme, netloc := netloc, path := path,
    params := params, query := query, fragment := fragment }

/-- CPython `urllib.parse.urlunparse` (via `urlunsplit`): rejoin the
six components. -/
def urlunparse (p : UrlParts) : String :=
  let url := if p.params.isEmpty then p.path else p.path ++ ';' :: p.params
  let url :=
    if ¬ p.netloc.isEmpty ∨ url.take 2 = ['/', '/'] then
      let url1 := if ¬ url.isEmpty ∧ url.take 1 ≠ ['/'] then '/' :: url else url
      '/' :: '/' :: (p.netloc ++ url1)
    else url
  let url := if p.scheme.isEmpty then url else p.scheme ++ ':' :: url
  let url := if p.query.isEmpty then url else url ++ '?' :: p.query
  let url := if p.fragment.isEmpty then url else url ++ '#' :: p.fragment
  ⟨url⟩

/-- `Visitor.tokenise` (models.py lines 147-154) with the settings value
`VISITOR_QUERYSTRING_KEY` and `str(self.uuid)` passed explicitly:
`parse_qs` the query, `dict.update` the token key with the uuid object,
`urlencode`, reassemble. -/
def tokenise (key uuidv : String) (url : String) : String :=
  let parts := urlparse url
  let query := parse_qs parts.query
  let d := query.map (fun kv => (kv.1, PyVal.strs kv.2))
  let d1 := dictUpdate d key.data (PyVal.raw uuidv.data)
  urlunparse { parts with query := urlencodeQ d1 }

/-! ## Concrete records used by witnesses and counterexamples -/

/-- A record that is simultaneously inactive, expired and exhausted. -/
def vAllBad : Visitor :=
  { uuid := "u", email := "a@b.c", scope := "s", created_at := 0,
    expires_at := some (-5), is_active := false,
    max_uses := some 2, uses_remaining := some 0 }

/-- An active record that is expired (and also exhausted). -/
def vExpiredEx : Visitor :=
  { uuid := "u", email := "a@b.c", scope := "s", created_at := 0,
    expires_at := some (-5), is_active := true,
    max_uses := some 2, uses_remaining := some 0 }

/-- An active, unexpired record that is exhausted. -/
def vExhausted : Visitor :=
  { uuid := "u", email := "a@b.c", scope := "s", created_at := 0,
    expires_at := some 1000, is_active := true,
    max_uses := some 2, uses_remaining := some 0 }

/-! ## Claim theorems -/

/-- C6: a constructed `Visitor` with no `expires_at` supplied gets
`expires_at = created_at + default expiry` (concretely, a 1-hour expiry
at 2024-01-01T00:00:00Z, i.e. epoch 1704067200, gives epoch 1704070800),
`expires_at` is non-null after construction in every case, and
`uses_remaining` is initialized to `max_uses` exactly when `max_uses` is
supplied and `uses_remaining` is not, being left as given (null)
otherwise. -/
theorem c6_constructor_defaults (expiry : Int) (v : Visitor) :
    ((visitorInit expiry v).expires_at =
      if v.expires_at = none then some (v.created_at + expiry) else v.expires_at) ∧
    (visitorInit expiry v).expires_at.isSome = true ∧
    ((visitorInit expiry v).uses_remaining =
      if v.max_uses.isSome ∧ v.uses_remaining = none then v.max_uses else v.uses_remaining) ∧
    (visitorInit 3600
      { uuid := "u", email := "a@b.c", scope := "s",
        created_at := 1704067200 }).expires_at = some 1704070800 := by
  refine ⟨?_, ?_, ?_, by decide⟩ <;>
    unfold visitorInit <;>
    rcases hv : v.expires_at with _ | e <;>
      rcases hm : v.max_uses with _ | m <;>
        rcases hu : v.uses_remaining with _ | n <;>
          simp [hv, hm, hu]

/-- C2: `validate` checks the three conditions in the fixed order
inactive → expired → out-of-uses, so an inactive record raises the
inactive error whatever else holds, an active expired record the
expired error, and the exhausted error only fires when the record is
active and unexpired; the three exception messages are pairwise
distinct.  `validate` is a pure function of the record in this
embedding, mirroring that the source method only reads fields. -/
theorem c2_validate_priority (v : Visitor) (now : Int) :
    (v.is_active = false → validate v now = .error .inactive) ∧
    (v.is_active = true → has_expired v now = true → validate v now = .error .expired) ∧
    (v.is_active = true → has_expired v now = false → out_of_uses v = true →
      validate v now = .error .outOfUses) ∧
    message .inactive ≠ message .expired ∧
    message .inactive ≠ message .outOfUses ∧
    message .expired ≠ message .outOfUses := by
  refine ⟨fun h1 => ?_, fun h1 h2 => ?_, fun h1 h2 h3 => ?_,
    by decide, by decide, by decide⟩ <;> simp_all [validate]

/-- Witness for C2 at concrete records: the simultaneously
inactive/expired/exhausted record `vAllBad` raises the inactive error,
and the other two priorities at their own records. -/
theorem c2_validate_priority_witness :
    validate vAllBad 0 = .error .inactive ∧
    validate vExpiredEx 0 = .error .expired ∧
    validate vExhausted 0 = .error .outOfUses := by
  refine ⟨(c2_validate_priority vAllBad 0).1 rfl,
    (c2_validate_priority vExpiredEx 0).2.1 rfl (by decide),
    (c2_validate_priority vExhausted 0).2.2.1 rfl (by decide) (by decide)⟩

/-- C10: constructing a `Visitor` with `max_uses = 0` is not rejected —
`visitorInit` is a total function and produces a record with
`uses_remaining = 0`, immediately `out_of_uses`, immediately invalid,
and `validate` raises the exhausted-uses error whenever the record is
active and not expired. -/
theorem c10_max_uses_zero (expiry : Int) (vin : Visitor) (now : Int)
    (h0 : vin.max_uses = some 0) (h1 : vin.uses_remaining = none) :
    (visitorInit expiry vin).uses_remaining = some 0 ∧
    out_of_uses (visitorInit expiry vin) = true ∧
    is_valid (visitorInit expiry vin) now = false ∧
    ((visitorInit expiry vin).is_active = true →
      has_expired (visitorInit expiry vin) now = false →
      validate (visitorInit expiry vin) now = .error .outOfUses) := by
  have hu : (visitorInit expiry vin).uses_remaining = some 0 := by
    unfold visitorInit
    rcases hv : vin.expires_at with _ | e <;> simp [hv, h0, h1]
  have hm : (visitorInit expiry vin).max_uses = some 0 := by
    unfold visitorInit
    rcases hv : vin.expires_at with _ | e <;> simp [hv, h0, h1]
  have ho : out_of_uses (visitorInit expiry vin) = true := by
    simp [out_of_uses, hm, hu]
  refine ⟨hu, ho, by simp [is_valid, ho], fun ha he => ?_⟩
  simp [validate, ha, he, ho]

/-- A record created with `max_uses = 0` and no explicit
`uses_remaining` or `expires_at`. -/
def vZero : Visitor :=
  { uuid := "u", email := "a@b.c", scope := "s", created_at := 0,
    max_uses := some 0 }

/-- Witness for C10 at the concrete record `vZero` with a 1-hour expiry,
evaluated at time 0 (active, not expired). -/
theorem c10_max_uses_zero_witness :
    (visitorInit 3600 vZero).uses_remaining = some 0 ∧
    out_of_uses (visitorInit 3600 vZero) = true ∧
    is_valid (visitorInit 3600 vZero) 0 = false ∧
    validate (visitorInit 3600 vZero) 0 = .error .outOfUses := by
  have h := c10_max_uses_zero 3600 vZero 0 rfl rfl
  exact ⟨h.1, h.2.1, h.2.2.1, h.2.2.2 (by decide) (by decide)⟩

/-- C9: the creation path rejects an empty `email` or an empty `scope`
with a `ValidationError`, producing no record. -/
theorem c9_create_requires_email_scope (expiry : Int) (v : Visitor)
    (h : v.email = "" ∨ v.scope = "") :
    create expiry v = .error .validationError := by
  unfold create
  rcases h with h | h <;> simp [h]

/-- A creation input with an empty email. -/
def vNoEmail : Visitor :=
  { uuid := "u", email := "", scope := "s", created_at := 0 }

/-- Witness for C9: creating with an empty email fails. -/
theorem c9_create_requires_email_scope_witness :
    create 3600 vNoEmail = .error .validationError :=
  c9_create_requires_email_scope 3600 vNoEmail (Or.inl rfl)

/-- A pass whose `max_uses` is 0, deactivated, exhausted and expired:
the input on which C5 as stated fails. -/
def vZeroSpent : Visitor :=
  { uuid := "u", email := "a@b.c", scope := "s", created_at := 0,
    expires_at := some (-100), is_active := false,
    max_uses := some 0, uses_remaining := some 0 }

/-- C5 counterexample: for the record with `max_uses = 0`, `reactivate`
at time 100 (1-hour default expiry) does reset the fields, but the
reactivated pass is immediately `out_of_uses`, so `is_valid` is false at
time 100 — the claim promises `is_valid` true for every record. -/
theorem c5_counterexample :
    (reactivate 3600 ⟨vZeroSpent, 0⟩ 100).record.is_active = true ∧
    (reactivate 3600 ⟨vZeroSpent, 0⟩ 100).record.expires_at = some 3700 ∧
    (reactivate 3600 ⟨vZeroSpent, 0⟩ 100).record.uses_remaining = vZeroSpent.max_uses ∧
    is_valid (reactivate 3600 ⟨vZeroSpent, 0⟩ 100).record 100 = false := by
  decide

/-- C5 (amended): after `reactivate` at time `T` the record has
`is_active = true`, `expires_at = T +` default expiry and
`uses_remaining = max_uses`, whatever the prior state; and it passes
`is_valid` at `T` provided the expiry duration is non-negative and
`max_uses` is not 0 (a `max_uses = 0` pass is reborn exhausted). -/
theorem c5_reactivate_resets (expiry : Int) (st : DB) (T : Int)
    (hex : 0 ≤ expiry) (hm : st.record.max_uses ≠ some 0) :
    (reactivate expiry st T).record.is_active = true ∧
    (reactivate expiry st T).record.expires_at = some (T + expiry) ∧
    (reactivate expiry st T).record.uses_remaining = st.record.max_uses ∧
    is_valid (reactivate expiry st T).record T = true := by
  refine ⟨rfl, rfl, rfl, ?_⟩
  have hne : has_expired (reactivate expiry st T).record T = false := by
    simp [reactivate, save, has_expired]
    omega
  have hno : out_of_uses (reactivate expiry st T).record = false := by
    rcases hmu : st.record.max_uses with _ | m
    · simp [reactivate, save, out_of_uses, hmu]
    · have : m ≠ 0 := by
        intro h0
        exact hm (by rw [hmu, h0])
      simp [reactivate, save, out_of_uses, hmu, this]
  simp [is_valid, hne, hno]
  rfl

/-- The spec's own reactivation example: `max_uses = 3`,
`uses_remaining = 0`, inactive, expired in the past. -/
def vSpent : Visitor :=
  { uuid := "u", email := "a@b.c", scope := "s", created_at := 0,
    expires_at := some (-100), is_active := false,
    max_uses := some 3, uses_remaining := some 0 }

/-- Witness for C5 (amended) at the spec's example record, reactivated
at time 100 with a 1-hour expiry. -/
theorem c5_reactivate_resets_witness :
    (reactivate 3600 ⟨vSpent, 0⟩ 100).record.is_active = true ∧
    (reactivate 3600 ⟨vSpent, 0⟩ 100).record.expires_at = some (100 + 3600) ∧
    (reactivate 3600 ⟨vSpent, 0⟩ 100).record.uses_remaining = vSpent.max_uses ∧
    is_valid (reactivate 3600 ⟨vSpent, 0⟩ 100).record 100 = true :=
  c5_reactivate_resets 3600 ⟨vSpent, 0⟩ 100 (by decide) (by decide)

/-! ## Helper lemmas shared by the remaining claims -/

/-- `__init__` never touches `max_uses`. -/
theorem visitorInit_max_uses (expiry : Int) (v : Visitor) :
    (visitorInit expiry v).max_uses = v.max_uses := by
  unfold visitorInit
  rcases hv : v.expires_at with _ | e <;> simp [hv] <;> split <;> rfl

/-- When `uses_remaining` is not supplied, `__init__` leaves it equal
to `max_uses` (defaulted when `max_uses` is set, both null otherwise). -/
theorem visitorInit_uses_remaining_of_none (expiry : Int) (v : Visitor)
    (hu : v.uses_remaining = none) :
    (visitorInit expiry v).uses_remaining = v.max_uses := by
  unfold visitorInit
  rcases hv : v.expires_at with _ | e <;>
    rcases hm : v.max_uses with _ | m <;> simp [hv, hm, hu]

/-- A successful `validate` means the record was active, unexpired and
not out of uses (the three checks all fell through). -/
theorem validate_ok_parts (v : Visitor) (now : Int)
    (h : validate v now = .ok ()) :
    v.is_active = true ∧ has_expired v now = false ∧ out_of_uses v = false := by
  unfold validate at h
  rcases ha : v.is_active <;> rcases he : has_expired v now <;>
    rcases ho : out_of_uses v <;> simp_all

/-- `validate` only raises the exhausted-uses error when `out_of_uses`
holds. -/
theorem validate_error_outOfUses (v : Visitor) (now : Int)
    (h : validate v now = .error .outOfUses) : out_of_uses v = true := by
  unfold validate at h
  rcases ha : v.is_active <;> rcases he : has_expired v now <;>
    rcases ho : out_of_uses v <;> simp_all

/-- The consume save persists exactly the `uses_remaining` field and
does not touch the `auto_now` column. -/
theorem saveUpdateFields_uses_remaining (st : DB) (v : Visitor) (now : Int) :
    saveUpdateFields st v ["uses_remaining"] now =
      ⟨{ st.record with uses_remaining := v.uses_remaining }, st.last_updated_at⟩ := rfl

/-- A consume on an unlimited pass (`max_uses` null) never changes the
stored state: either validation fails before any write, or the
decrement branch is skipped. -/
theorem get_and_update_state_of_none (st : DB) (t : Int)
    (h : st.record.max_uses = none) : (get_and_update st t).2 = st := by
  unfold get_and_update
  rcases hv : validate st.record t with e | u <;> simp [hv, h]

/-- A consume on an unlimited pass never raises the exhausted-uses
error. -/
theorem get_and_update_not_exhausted_of_none (st : DB) (t : Int)
    (h : st.record.max_uses = none) :
    (get_and_update st t).1 ≠ Except.error PassError.outOfUses := by
  unfold get_and_update
  rcases hv : validate st.record t with e | u
  · intro hc
    simp [hv] at hc
    have := validate_error_outOfUses st.record t (by rw [hv, hc])
    simp [out_of_uses, h] at this
  · simp [hv, h]

/-- Each mutation operation preserves the data-model invariant. -/
theorem invB_applyOp (st : DB) (h : invB st.record = true) (op : Op) :
    invB (applyOp st op).record = true := by
  cases op with
  | consume t =>
    show invB (get_and_update st t).2.record = true
    unfold get_and_update
    rcases hv : validate st.record t with e | u
    · simpa [hv] using h
    · rcases hm : st.record.max_uses with _ | m
      · simpa [hv, hm] using h
      · rcases hn : st.record.uses_remaining with _ | n
        · simp [invB, hm, hn] at h
        · have hle : n ≤ m := by simpa [invB, hm, hn] using h
          simp [hv, hm, hn, saveUpdateFields_uses_remaining, invB]
          omega
  | deact t =>
    show invB (deactivate st t).record = true
    simpa [deactivate, save, invB] using h
  | react e t =>
    show invB (reactivate e st t).record = true
    rcases hm : st.record.max_uses with _ | m <;>
      simp [reactivate, save, invB, hm]

/-- C1: `get_and_update` is all-or-nothing.  If `validate` fails, the
raised error propagates and the stored state is returned untouched
(nothing is mutated or saved).  If it succeeds and `max_uses` is set,
`uses_remaining` was non-zero, exactly one use is consumed
(`(n - 1) + 1 = n`), the decrement is persisted, and the returned
record carries the post-decrement value. -/
theorem c1_consume_all_or_nothing (st : DB) (now : Int) :
    (∀ e, validate st.record now = .error e → get_and_update st now = (.error e, st)) ∧
    (∀ m n, validate st.record now = .ok () → st.record.max_uses = some m →
      st.record.uses_remaining = some n →
      n ≠ 0 ∧ (n - 1) + 1 = n ∧
      get_and_update st now =
        (.ok { st.record with uses_remaining := some (n - 1) },
         ⟨{ st.record with uses_remaining := some (n - 1) }, st.last_updated_at⟩)) := by
  constructor
  · intro e he
    unfold get_and_update
    simp [he]
  · intro m n hok hm hn
    have hout : out_of_uses st.record = false := (validate_ok_parts _ _ hok).2.2
    have hne : n ≠ 0 := by
      intro h0
      simp [out_of_uses, hm, hn, h0] at hout
    refine ⟨hne, by omega, ?_⟩
    unfold get_and_update
    simp [hok, hm, hn, saveUpdateFields_uses_remaining]

/-- A freshly issued 3-use pass stored with `last_updated_at = 50`. -/
def vFresh3 : Visitor :=
  { uuid := "u", email := "a@b.c", scope := "s", created_at := 0,
    expires_at := some 1000, max_uses := some 3, uses_remaining := some 3 }

/-- Witness for C1: consuming the fresh 3-use pass at time 0 decrements
3 to 2 and persists it; consuming the inactive/expired/exhausted record
`vAllBad` propagates the inactive error and leaves the store as it
was. -/
theorem c1_consume_all_or_nothing_witness :
    get_and_update ⟨vAllBad, 50⟩ 0 = (.error .inactive, ⟨vAllBad, 50⟩) ∧
    (3 : Nat) ≠ 0 ∧ (3 - 1) + 1 = (3 : Nat) ∧
    get_and_update ⟨vFresh3, 50⟩ 0 =
      (.ok { vFresh3 with uses_remaining := some 2 },
       ⟨{ vFresh3 with uses_remaining := some 2 }, 50⟩) := by
  refine ⟨(c1_consume_all_or_nothing ⟨vAllBad, 50⟩ 0).1 .inactive (by decide), ?_⟩
  exact (c1_consume_all_or_nothing ⟨vFresh3, 50⟩ 0).2 3 3 (by decide) rfl rfl

/-- A record constructed with explicit values for both counters that
violate the claimed invariant: `uses_remaining = 5 > 3 = max_uses`. -/
def vOver : Visitor :=
  { uuid := "u", email := "a@b.c", scope := "s", created_at := 0,
    max_uses := some 3, uses_remaining := some 5 }

/-- C4 counterexample: `__init__` only defaults `uses_remaining` when it
is `None`; constructing with explicit `max_uses = 3` and
`uses_remaining = 5` yields a record with `uses_remaining > max_uses`,
so the invariant does not hold for records constructed with explicit
values for both fields. -/
theorem c4_counterexample :
    (visitorInit 3600 vOver).max_uses = some 3 ∧
    (visitorInit 3600 vOver).uses_remaining = some 5 ∧
    invB (visitorInit 3600 vOver) = false := by decide

/-- C4 (amended): the invariant — `uses_remaining` non-null iff
`max_uses` non-null, and `uses_remaining ≤ max_uses` when both are set
(both counters are non-negative by type) — is established by
construction whenever `uses_remaining` is not explicitly supplied, and
is preserved by every sequence of consume, deactivate and reactivate
operations from any state satisfying it.  It is not established by
construction with explicit out-of-range `uses_remaining`
(`c4_counterexample`). -/
theorem c4_invariant (expiry : Int) (vin : Visitor) (hin : vin.uses_remaining = none)
    (st : DB) (hst : invB st.record = true) (ops : List Op) :
    invB (visitorInit expiry vin) = true ∧ invB (applyOps st ops).record = true := by
  constructor
  · have hu := visitorInit_uses_remaining_of_none expiry vin hin
    have hm := visitorInit_max_uses expiry vin
    rcases hmu : vin.max_uses with _ | m <;>
      simp [invB, hu, hm, hmu]
  · induction ops generalizing st with
    | nil => exact hst
    | cons op ops ih => exact ih (applyOp st op) (invB_applyOp st hst op)

/-- A fresh 3-use pass issued without an explicit `uses_remaining`. -/
def vFreshC4 : Visitor :=
  { uuid := "u", email := "a@b.c", scope := "s", created_at := 0,
    expires_at := some 1000, max_uses := some 3 }

/-- Witness for C4 (amended): the invariant holds for the constructed
pass and after a consume, a deactivate and a reactivate. -/
theorem c4_invariant_witness :
    invB (visitorInit 3600 vFreshC4) = true ∧
    invB (applyOps ⟨visitorInit 3600 vFreshC4, 0⟩
      [Op.consume 0, Op.deact 1, Op.react 3600 2]).record = true :=
  c4_invariant 3600 vFreshC4 rfl ⟨visitorInit 3600 vFreshC4, 0⟩ (by decide)
    [Op.consume 0, Op.deact 1, Op.react 3600 2]

/-- C7: a pass created with `max_uses` null (and `uses_remaining` not
supplied) has both counters null after construction, any number of
consume calls leaves the stored record (hence `uses_remaining`) exactly
as it was, `out_of_uses` is false, and no consume call can ever return
the exhausted-uses error. -/
theorem c7_unlimited_pass (expiry : Int) (vin : Visitor) (lu : Int)
    (hm : vin.max_uses = none) (hu : vin.uses_remaining = none) :
    (visitorInit expiry vin).max_uses = none ∧
    (visitorInit expiry vin).uses_remaining = none ∧
    (∀ ts : List Int,
      consumeMany ⟨visitorInit expiry vin, lu⟩ ts = ⟨visitorInit expiry vin, lu⟩) ∧
    out_of_uses (visitorInit expiry vin) = false ∧
    (∀ t, (get_and_update ⟨visitorInit expiry vin, lu⟩ t).1 ≠
      Except.error PassError.outOfUses) := by
  have h1 : (visitorInit expiry vin).max_uses = none := by
    rw [visitorInit_max_uses, hm]
  have h2 : (visitorInit expiry vin).uses_remaining = none := by
    rw [visitorInit_uses_remaining_of_none expiry vin hu, hm]
  refine ⟨h1, h2, ?_, by simp [out_of_uses, h1], fun t =>
    get_and_update_not_exhausted_of_none _ t h1⟩
  intro ts
  induction ts with
  | nil => rfl
  | cons t ts ih =>
    show consumeMany (get_and_update ⟨visitorInit expiry vin, lu⟩ t).2 ts = _
    rw [get_and_update_state_of_none _ t h1]
    exact ih

/-- An unlimited pass (`max_uses` not supplied). -/
def vUnlimited : Visitor :=
  { uuid := "u", email := "a@b.c", scope := "s", created_at := 0,
    expires_at := some 1000 }

/-- Witness for C7: three consume calls on the unlimited pass leave the
stored state unchanged, and a consume cannot report exhaustion. -/
theorem c7_unlimited_pass_witness :
    (visitorInit 3600 vUnlimited).uses_remaining = none ∧
    consumeMany ⟨visitorInit 3600 vUnlimited, 0⟩ [0, 1, 2] =
      ⟨visitorInit 3600 vUnlimited, 0⟩ ∧
    out_of_uses (visitorInit 3600 vUnlimited) = false ∧
    (get_and_update ⟨visitorInit 3600 vUnlimited, 0⟩ 0).1 ≠
      Except.error PassError.outOfUses := by
  have h := c7_unlimited_pass 3600 vUnlimited 0 rfl rfl
  exact ⟨h.2.1, h.2.2.1 [0, 1, 2], h.2.2.2.1, h.2.2.2.2 0⟩

/-- C8 counterexample: the consume path saves with
`update_fields=["uses_remaining"]`; Django updates an `auto_now` column
only when it is listed, so a successful consume at time 100 of a row
stored with `last_updated_at = 50` leaves `last_updated_at = 50` — the
claim says the save always implicitly updates it. -/
theorem c8_counterexample :
    (get_and_update ⟨vFresh3, 50⟩ 100).1 = .ok { vFresh3 with uses_remaining := some 2 } ∧
    (get_and_update ⟨vFresh3, 50⟩ 100).2.last_updated_at = 50 ∧
    (50 : Int) ≠ 100 := by decide

/-- C8 (amended): a save naming specific fields writes exactly the
named fields — on the consume path the stored record differs from the
old one in `uses_remaining` alone — and `last_updated_at` is updated by
a full `save()` but not by an `update_fields` save that omits it, so
the consume path leaves `last_updated_at` unchanged. -/
theorem c8_update_fields_frame (st : DB) (neu : Visitor) (now : Int) (m n : Nat)
    (hok : validate st.record now = .ok ()) (hm : st.record.max_uses = some m)
    (hn : st.record.uses_remaining = some n) :
    ((get_and_update st now).2.record =
      { st.record with uses_remaining := some (n - 1) } ∧
     (get_and_update st now).2.last_updated_at = st.last_updated_at) ∧
    (save st neu now).last_updated_at = now := by
  refine ⟨?_, rfl⟩
  unfold get_and_update
  simp [hok, hm, hn, saveUpdateFields_uses_remaining]

/-- Witness for C8 (amended): consuming the fresh 3-use pass stored at
`last_updated_at = 50` writes only the decremented counter, keeps
`last_updated_at = 50`, while a full save at time 100 sets it to 100. -/
theorem c8_update_fields_frame_witness :
    (get_and_update ⟨vFresh3, 50⟩ 100).2.record =
      { vFresh3 with uses_remaining := some 2 } ∧
    (get_and_update ⟨vFresh3, 50⟩ 100).2.last_updated_at = 50 ∧
    (save ⟨vFresh3, 50⟩ vFresh3 100).last_updated_at = 100 := by
  have h := c8_update_fields_frame ⟨vFresh3, 50⟩ vFresh3 100 3 3 (by decide) rfl rfl
  exact ⟨h.1.1, h.1.2, h.2⟩

/-- The string form of a record's token (uuid). -/
def tokenUuid : String := "11111111-2222-3333-4444-555555555555"

/-- C3: run of `tokenise` on the spec's own example.  The token
parameter does appear exactly once with the record's token as value,
but the pre-existing parameter is not preserved: `parse_qs` returns the
values as Python lists and `urlencode` is called without `doseq`, so
`a=1` is re-serialized as the percent-encoded Python repr of the parsed
list — `a=%5B%271%27%5D`, i.e. the value becomes the 6-character string
obtained from the list display of one quoted element — and a second
application nests the mangling again instead of being idempotent. -/
theorem c3_tokenise_run :
    tokenise "vuid" tokenUuid "https://x.test/p?a=1" =
      "https://x.test/p?a=%5B%271%27%5D&vuid=11111111-2222-3333-4444-555555555555" ∧
    tokenise "vuid" tokenUuid
        "https://x.test/p?a=%5B%271%27%5D&vuid=11111111-2222-3333-4444-555555555555" =
      "https://x.test/p?a=%5B%22%5B%271%27%5D%22%5D&vuid=11111111-2222-3333-4444-555555555555" := by
  decide

end Visitors
